import Mathlib

/-!
Shallow embedding of the interception-driven extraction pipeline of
`src/parser.py` (class `Parser`): the field mappers `get_profile` and
`tweet_parse`, the timeline extractor `get_tweets`, and the interception
router `intercept_request` together with the session-scoped result store
`self.data`.  JSON payloads are modelled by an inductive `JSON` type with
insertion-ordered objects (Python dicts preserve insertion order); Python
exceptions (KeyError, IndexError, TypeError, AttributeError) are modelled
by the `Except PyErr` monad.
-/

/-- JSON-like values as decoded by `response.json()` in Python:
`None`, booleans, numbers, strings, lists, and insertion-ordered dicts. -/
inductive JSON where
  | null
  | bool (b : Bool)
  | num (n : Int)
  | str (s : String)
  | arr (xs : List JSON)
  | obj (fields : List (String × JSON))
deriving Repr

/-- Python exceptions that the embedded code can raise. -/
inductive PyErr where
  | keyError (k : String)
  | indexError
  | typeError
  | attributeError
deriving Repr, DecidableEq

/-- Python `d[k]` on a JSON value: key lookup on a dict, raising
`KeyError` when the key is missing and `TypeError` when the value is not
a dict (e.g. indexing a list or a string with a string key). -/
def dictGet (j : JSON) (k : String) : Except PyErr JSON :=
  match j with
  | .obj fs =>
    match fs.lookup k with
    | some v => .ok v
    | none => .error (.keyError k)
  | _ => .error .typeError

/-- Python `d.get(k, default)`: total lookup on a dict, raising
`AttributeError` when the receiver is not a dict (no `.get` method). -/
def dictGetD (j : JSON) (k : String) (d : JSON) : Except PyErr JSON :=
  match j with
  | .obj fs => .ok ((fs.lookup k).getD d)
  | _ => .error .attributeError

/-- Python `d.get(k)` — same as `d.get(k, None)`. -/
def dictGetOpt (j : JSON) (k : String) : Except PyErr JSON :=
  dictGetD j k .null

/-- Python `xs[i]` for a non-negative index on a JSON value: raises
`IndexError` when out of range and `TypeError` when the value is not a
list. -/
def listIndex (j : JSON) (i : Nat) : Except PyErr JSON :=
  match j with
  | .arr xs =>
    match xs.get? i with
    | some v => .ok v
    | none => .error .indexError
  | _ => .error .typeError

/-- Python truthiness of a JSON value (`if tweet_media:`): empty
collections, empty strings, zero and `None` are falsy. -/
def truthy : JSON → Bool
  | .null => false
  | .bool b => b
  | .num n => n != 0
  | .str s => s != ""
  | .arr xs => !xs.isEmpty
  | .obj fs => !fs.isEmpty

/-- Python slice `xs[:n]` with a possibly negative bound `n`. -/
def pySliceTo (xs : List JSON) (n : Int) : List JSON :=
  if 0 ≤ n then xs.take n.toNat else xs.take (xs.length - (-n).toNat)

/-- The mandatory traversal performed at the head of the profile mapper:
index by "data", then "user", then "result", then "legacy". -/
def profilePath (data : JSON) : Except PyErr JSON :=
  dictGet data "data" >>= fun d =>
  dictGet d "user" >>= fun u =>
  dictGet u "result" >>= fun r =>
  dictGet r "legacy"

/-- Embedding of the profile mapper, method get_profile of class Parser:
traverse to the legacy user-info object, then build the seven-field
profile record, each field read with the total .get lookup, so a missing
key yields null, never an exception. -/
def get_profile (data : JSON) : Except PyErr JSON := do
  let profile ← profilePath data
  let username ← dictGetOpt profile "screen_name"
  let display_name ← dictGetOpt profile "name"
  let followers ← dictGetOpt profile "followers_count"
  let following ← dictGetOpt profile "friends_count"
  let tweets_count ← dictGetOpt profile "statuses_count"
  let profile_url ← dictGetOpt profile "profile_banner_url"
  let avatar ← dictGetOpt profile "profile_image_url_https"
  return .obj [("username", username), ("display_name", display_name),
    ("followers", followers), ("following", following),
    ("tweets_count", tweets_count), ("profile_url", profile_url),
    ("avatar", avatar)]

/-- The media-list extraction inside tweet_parse: read "entities" with a
default of an empty dict, then "media" with a default of an empty list. -/
def mediaRaw (legacy : JSON) : Except PyErr JSON := do
  let ents ← dictGetD legacy "entities" (.obj [])
  dictGetD ents "media" (.arr [])

/-- The list comprehension inside tweet_parse that builds one url record
per media item by reading its "media_url_https" key: iterating a
non-list raises TypeError; a missing URL key raises KeyError. -/
def mapMedia (j : JSON) : Except PyErr JSON :=
  match j with
  | .arr items => do
    let ms ← items.mapM (fun item => do
      let u ← dictGet item "media_url_https"
      pure (JSON.obj [("url", u)]))
    pure (.arr ms)
  | _ => .error .typeError

/-- Embedding of the post mapper, method tweet_parse of class Parser:
build the six-field tweet record (the five mandatory fields with raising
lookups, bookmark_count with a default of 0), then append a media field
only when the media-entities list is truthy (non-empty). -/
def tweet_parse (legacy : JSON) : Except PyErr JSON := do
  let created_at ← dictGet legacy "created_at"
  let text ← dictGet legacy "full_text"
  let quote_count ← dictGet legacy "quote_count"
  let reply_count ← dictGet legacy "reply_count"
  let retweet_count ← dictGet legacy "retweet_count"
  let bookmark_count ← dictGetD legacy "bookmark_count" (.num 0)
  let base := [("created_at", created_at), ("text", text),
    ("quote_count", quote_count), ("reply_count", reply_count),
    ("retweet_count", retweet_count), ("bookmark_count", bookmark_count)]
  let tweet_media ← mediaRaw legacy
  if truthy tweet_media then
    let media ← mapMedia tweet_media
    pure (.obj (base ++ [("media", media)]))
  else
    pure (.obj base)

/-- The traversal at the head of the timeline extractor: index by "data",
"user", "result", "timeline_v2", "timeline", then "instructions". -/
def instructionsOf (data : JSON) : Except PyErr JSON :=
  dictGet data "data" >>= fun d =>
  dictGet d "user" >>= fun u =>
  dictGet u "result" >>= fun r =>
  dictGet r "timeline_v2" >>= fun t =>
  dictGet t "timeline" >>= fun tl =>
  dictGet tl "instructions"

/-- The singleton first-post traversal applied to instruction index 1:
index by "entry", "content", "itemContent", "tweet_results", "result",
then "legacy". -/
def firstLegacyOf (inst1 : JSON) : Except PyErr JSON :=
  dictGet inst1 "entry" >>= fun e =>
  dictGet e "content" >>= fun c =>
  dictGet c "itemContent" >>= fun ic =>
  dictGet ic "tweet_results" >>= fun tr =>
  dictGet tr "result" >>= fun r =>
  dictGet r "legacy"

/-- The per-entry traversal inside the loop of the timeline extractor:
index by "content", "itemContent", "tweet_results", "result", then
"legacy". -/
def entryLegacy (tweet : JSON) : Except PyErr JSON :=
  dictGet tweet "content" >>= fun c =>
  dictGet c "itemContent" >>= fun ic =>
  dictGet ic "tweet_results" >>= fun tr =>
  dictGet tr "result" >>= fun r =>
  dictGet r "legacy"

/-- Python `xs` used as a sliceable list: raises `TypeError` otherwise. -/
def asList (j : JSON) : Except PyErr (List JSON) :=
  match j with
  | .arr xs => .ok xs
  | _ => .error .typeError

/-- The class attribute `Parser.TWIT_COUNT` (maximum number of tweets). -/
def TWIT_COUNT : Int := 50

/-- Embedding of the timeline extractor, method get_tweets of class
Parser: parse the singleton first post from instruction index 1, then
parse the entries of instruction index 2 limited by the slice bound
TWIT_COUNT - 1, in order.  The cap is the class attribute TWIT_COUNT
(default 50). -/
def get_tweets (data : JSON) (twit_count : Int := TWIT_COUNT) :
    Except PyErr (List JSON) := do
  let instructions ← instructionsOf data
  let inst1 ← listIndex instructions 1
  let fl ← firstLegacyOf inst1
  let first ← tweet_parse fl
  let inst2 ← listIndex instructions 2
  let entriesJ ← dictGet inst2 "entries"
  let original_tweets ← asList entriesJ
  let rest ← (pySliceTo original_tweets (twit_count - 1)).mapM
    (fun tweet => entryLegacy tweet >>= tweet_parse)
  pure (first :: rest)

/-- Membership test of the Python keyword in, for strings: substring
containment of pat in s. -/
def strContains (s pat : String) : Bool :=
  decide (pat.toList <:+: s.toList)

/-- The session result store `self.data`: an insertion-ordered dict from
string keys to JSON values. -/
abbrev Store := List (String × JSON)

/-- Python dict assignment `d[k] = v`: overwrite in place when the key
exists (preserving its position), append otherwise. -/
def setStore : Store → String → JSON → Store
  | [], k, v => [(k, v)]
  | (k', v') :: rest, k, v =>
    if k' = k then (k, v) :: rest
    else (k', v') :: setStore rest k v

/-- Observable outcome of one `Parser.intercept_request` call: the result
store afterwards, the number of `route.fetch()` invocations, whether
`route.continue_()` was reached, and the exception that escaped the
handler, if any. -/
structure RouterOutcome where
  store : Store
  fetched : Nat
  continued : Bool
  escaped : Option PyErr
deriving Repr

/-- Embedding of the interception router, method intercept_request of
class Parser: test the URL against the two endpoint substrings in order;
on each match fetch the body and run the matching mapper, storing under
key "user" resp. key "tweets"; finally forward the request.  The code
has no exception handler, so a mapper failure escapes and skips
everything after it, including the forwarding call.  Here fetchBody is
the decoded JSON that the fetch capability returns. -/
def intercept_request (url : String) (fetchBody : JSON) (store : Store) :
    RouterOutcome :=
  if strContains url "UserByScreenName" then
    match get_profile fetchBody with
    | .error e => ⟨store, 1, false, some e⟩
    | .ok prof =>
      let store1 := setStore store "user" prof
      if strContains url "UserTweets" then
        match get_tweets fetchBody TWIT_COUNT with
        | .error e => ⟨store1, 2, false, some e⟩
        | .ok tws => ⟨setStore store1 "tweets" (.arr tws), 2, true, none⟩
      else ⟨store1, 1, true, none⟩
  else
    if strContains url "UserTweets" then
      match get_tweets fetchBody TWIT_COUNT with
      | .error e => ⟨store, 1, false, some e⟩
      | .ok tws => ⟨setStore store "tweets" (.arr tws), 1, true, none⟩
    else ⟨store, 0, true, none⟩

/-- One browsing session: the page driver delivers interception events
one at a time (serialized event delivery); each event carries the request
URL and the JSON body its `route.fetch()` would return.  The store left
by each handler call is passed to the next. -/
def runSession : List (String × JSON) → Store → Store
  | [], store => store
  | (url, body) :: rest, store =>
    runSession rest (intercept_request url body store).store

/-- Top-level keys of a store. -/
def storeKeys (s : Store) : List String := s.map Prod.fst

/-- Keys of a JSON object (empty for non-objects). -/
def objKeys : JSON → List String
  | .obj fs => fs.map Prod.fst
  | _ => []

/-- Key lookup on a JSON object (none for non-objects). -/
def objLookup (j : JSON) (k : String) : Option JSON :=
  match j with
  | .obj fs => fs.lookup k
  | _ => none

/-- A scalar JSON value: an integer or a string. -/
def isScalar : JSON → Bool
  | .num _ => true
  | .str _ => true
  | _ => false

/-- An integer, a string, or null. -/
def scalarOrNull : JSON → Bool
  | .null => true
  | .num _ => true
  | .str _ => true
  | _ => false

/-! ### Concrete payloads used by witnesses and counterexamples -/

/-- A minimal legacy tweet fragment with the five mandatory fields and no
`bookmark_count`, no `entities`. -/
def cLegacy : JSON := .obj [("created_at", .str "Mon May 01"),
  ("full_text", .str "hello"), ("quote_count", .num 1),
  ("reply_count", .num 2), ("retweet_count", .num 3)]

/-- A legacy tweet fragment with `bookmark_count` and two media entries. -/
def cLegacyMedia : JSON := .obj [("created_at", .str "Tue May 02"),
  ("full_text", .str "pics"), ("quote_count", .num 4),
  ("reply_count", .num 5), ("retweet_count", .num 6),
  ("bookmark_count", .num 7),
  ("entities", .obj [("media", .arr
    [.obj [("media_url_https", .str "https://img/1")],
     .obj [("media_url_https", .str "https://img/2")]])])]

/-- Wrap a legacy fragment the way a timeline entry does. -/
def wrapEntry (l : JSON) : JSON :=
  .obj [("content", .obj [("itemContent", .obj [("tweet_results",
    .obj [("result", .obj [("legacy", l)])])])])]

/-- Instruction index 1: the wrapped singleton first post. -/
def mkInst1 (l : JSON) : JSON :=
  .obj [("entry", .obj [("content", .obj [("itemContent", .obj
    [("tweet_results", .obj [("result", .obj [("legacy", l)])])])])])]

/-- A full timeline payload: instruction 0 is a filler, instruction 1 the
singleton first post, instruction 2 the entries sequence. -/
def mkTimeline (first : JSON) (entries : List JSON) : JSON :=
  .obj [("data", .obj [("user", .obj [("result", .obj [("timeline_v2",
    .obj [("timeline", .obj [("instructions", .arr
      [.null, mkInst1 first, .obj [("entries", .arr entries)]])])])])])])]

/-- A timeline payload with one entry after the first post. -/
def cTimeline1 : JSON := mkTimeline cLegacy [wrapEntry cLegacyMedia]

/-- The posts `get_tweets` extracts from `cTimeline1` at the default cap. -/
def cTs : List JSON := ((get_tweets cTimeline1 TWIT_COUNT).toOption).getD []

/-- A legacy user-info fragment with all seven source keys. -/
def cProfLegacy : JSON := .obj [("screen_name", .str "elonmusk"),
  ("name", .str "Elon Musk"), ("followers_count", .num 100),
  ("friends_count", .num 50), ("statuses_count", .num 10),
  ("profile_banner_url", .str "https://banner"),
  ("profile_image_url_https", .str "https://avatar")]

/-- A full profile payload around `cProfLegacy`. -/
def cProfBody : JSON :=
  .obj [("data", .obj [("user", .obj [("result", .obj
    [("legacy", cProfLegacy)])])])]

/-! ### Helper lemmas -/

theorem except_bind_ok {α β : Type} {e : Except PyErr α} {f : α → Except PyErr β}
    {b : β} (h : (e >>= f) = .ok b) : ∃ a, e = .ok a ∧ f a = .ok b := by
  cases e with
  | error err => simp [Bind.bind, Except.bind] at h
  | ok a => exact ⟨a, rfl, by simpa [Bind.bind, Except.bind] using h⟩

theorem except_bind_error {α β : Type} {e : Except PyErr α} {f : α → Except PyErr β}
    {err : PyErr} (h : e = .error err) : (e >>= f) = .error err := by
  simp [h, Bind.bind, Except.bind]

theorem except_bind_eq {α β : Type} {e : Except PyErr α} {f : α → Except PyErr β}
    {a : α} (h : e = .ok a) : (e >>= f) = f a := by
  simp [h, Bind.bind, Except.bind]

/-- Successful `mapM` over `Except` preserves length and acts pointwise. -/
theorem mapM_ok_pointwise (f : JSON → Except PyErr JSON) :
    ∀ {xs ys : List JSON}, xs.mapM f = .ok ys →
      ys.length = xs.length ∧
      ∀ i (hi : i < xs.length), ∃ y, f (xs.get ⟨i, hi⟩) = .ok y ∧ ys.get? i = some y := by
  intro xs
  induction xs with
  | nil =>
    intro ys h
    rw [List.mapM_nil] at h
    cases h
    exact ⟨rfl, fun i hi => absurd hi (Nat.not_lt_zero i)⟩
  | cons x xs ih =>
    intro ys h
    rw [List.mapM_cons] at h
    obtain ⟨y, hy, h⟩ := except_bind_ok h
    obtain ⟨zs, hzs, h⟩ := except_bind_ok h
    have hys : ys = y :: zs := by
      simpa [Pure.pure, Except.pure] using h.symm
    subst hys
    obtain ⟨hlen, hpt⟩ := ih hzs
    refine ⟨by simp [hlen], fun i hi => ?_⟩
    cases i with
    | zero => exact ⟨y, hy, rfl⟩
    | succ j =>
      have hj : j < xs.length := Nat.lt_of_succ_lt_succ hi
      obtain ⟨z, hz, hz'⟩ := hpt j hj
      exact ⟨z, hz, hz'⟩

/-- A successful association-list lookup finds an actual member. -/
theorem lookup_mem_pair : ∀ {fs : List (String × JSON)} {k : String} {v : JSON},
    fs.lookup k = some v → (k, v) ∈ fs := by
  intro fs
  induction fs with
  | nil => intro k v h; cases h
  | cons p rest ih =>
    intro k v h
    obtain ⟨k', v'⟩ := p
    by_cases hk : k = k'
    · subst hk
      simp [List.lookup] at h
      simp [h]
    · have hbeq : (k == k') = false := beq_false_of_ne hk
      rw [List.lookup, hbeq] at h
      exact List.mem_cons_of_mem _ (ih h)

theorem storeKeys_setStore (k : String) (v : JSON) :
    ∀ s : Store, storeKeys (setStore s k v) =
      if k ∈ storeKeys s then storeKeys s else storeKeys s ++ [k] := by
  intro s
  induction s with
  | nil => simp [setStore, storeKeys]
  | cons p rest ih =>
    obtain ⟨k', v'⟩ := p
    by_cases hk : k' = k
    · subst hk
      simp [setStore, storeKeys]
    · rw [setStore, if_neg hk]
      have hne : ¬ (k = k') := fun h => hk h.symm
      have hcons : storeKeys ((k', v') :: setStore rest k v)
          = k' :: storeKeys (setStore rest k v) := rfl
      have hmemeq : (k ∈ storeKeys ((k', v') :: rest)) ↔ k ∈ storeKeys rest := by
        simp [storeKeys, List.mem_cons, hne]
      by_cases hmem : k ∈ storeKeys rest
      · rw [hcons, ih, if_pos hmem, if_pos (hmemeq.mpr hmem)]
        rfl
      · rw [hcons, ih, if_neg hmem, if_neg (fun hc => hmem (hmemeq.mp hc))]
        rfl

theorem storeKeys_setStore_nodup (k : String) (v : JSON) (s : Store)
    (h : (storeKeys s).Nodup) : (storeKeys (setStore s k v)).Nodup := by
  rw [storeKeys_setStore]
  by_cases hmem : k ∈ storeKeys s
  · rw [if_pos hmem]
    exact h
  · rw [if_neg hmem]
    simp [List.nodup_append, h, hmem]

/-- The result-store key invariant: only `user` and `tweets` appear, each
at most once. -/
def goodKeys (s : Store) : Prop :=
  storeKeys s ⊆ ["user", "tweets"] ∧ (storeKeys s).Nodup

theorem setStore_goodKeys {s : Store} {k : String} (v : JSON)
    (hk : k ∈ (["user", "tweets"] : List String)) (h : goodKeys s) :
    goodKeys (setStore s k v) := by
  obtain ⟨hsub, hnd⟩ := h
  refine ⟨?_, storeKeys_setStore_nodup k v s hnd⟩
  rw [storeKeys_setStore]
  by_cases hmem : k ∈ storeKeys s
  · rw [if_pos hmem]
    exact hsub
  · rw [if_neg hmem]
    intro a ha
    rcases List.mem_append.mp ha with h1 | h1
    · exact hsub h1
    · rw [List.mem_singleton.mp h1]
      exact hk

theorem intercept_request_goodKeys (url : String) (body : JSON) (s : Store)
    (h : goodKeys s) : goodKeys (intercept_request url body s).store := by
  unfold intercept_request
  split
  · split
    · exact h
    · split
      · split
        · exact setStore_goodKeys _ (by simp) h
        · exact setStore_goodKeys _ (by simp) (setStore_goodKeys _ (by simp) h)
      · exact setStore_goodKeys _ (by simp) h
  · split
    · split
      · exact h
      · exact setStore_goodKeys _ (by simp) h
    · exact h

theorem runSession_goodKeys :
    ∀ (events : List (String × JSON)) (s : Store),
      goodKeys s → goodKeys (runSession events s) := by
  intro events
  induction events with
  | nil => intro s h; exact h
  | cons e rest ih =>
    intro s h
    obtain ⟨url, body⟩ := e
    exact ih _ (intercept_request_goodKeys url body s h)

/-- Full behavioural characterization of `get_profile`: traverse the
mandatory path, then read the seven record fields off the legacy object
(null when absent), failing with `AttributeError` when the traversal
yields a non-object. -/
theorem get_profile_char (data : JSON) :
    get_profile data =
      (profilePath data) >>= fun p =>
        match p with
        | .obj fs => .ok (.obj
            [("username", ((fs.lookup "screen_name").getD .null)),
             ("display_name", ((fs.lookup "name").getD .null)),
             ("followers", ((fs.lookup "followers_count").getD .null)),
             ("following", ((fs.lookup "friends_count").getD .null)),
             ("tweets_count", ((fs.lookup "statuses_count").getD .null)),
             ("profile_url", ((fs.lookup "profile_banner_url").getD .null)),
             ("avatar", ((fs.lookup "profile_image_url_https").getD .null))])
        | _ => .error .attributeError := by
  cases hp : profilePath data with
  | error e => simp [get_profile, hp, Bind.bind, Except.bind]
  | ok p =>
    cases p <;>
      simp [get_profile, hp, Bind.bind, Except.bind, dictGetOpt, dictGetD,
        Pure.pure, Except.pure]

/-- Fields of a JSON object (empty for non-objects). -/
def objFields : JSON → List (String × JSON)
  | .obj fs => fs
  | _ => []

theorem scalarOrNull_of_isScalar {v : JSON} (h : isScalar v = true) :
    scalarOrNull v = true := by
  cases v <;> simp_all [isScalar, scalarOrNull]

/-- A legacy tweet fragment whose media list has an entry lacking the
secure URL key `media_url_https`. -/
def cLegacyBadMedia : JSON := .obj [("created_at", .str "Wed May 03"),
  ("full_text", .str "oops"), ("quote_count", .num 0),
  ("reply_count", .num 0), ("retweet_count", .num 0),
  ("entities", .obj [("media", .arr [.obj [("id_str", .str "1")]])])]

/-- C9: a request whose URL contains neither "UserByScreenName" nor
"UserTweets" is passed through: `route.continue_` is invoked, the fetch
capability is never used, and the result store is unchanged. -/
theorem intercept_request_passthrough (url : String) (body : JSON) (store : Store)
    (h1 : strContains url "UserByScreenName" = false)
    (h2 : strContains url "UserTweets" = false) :
    intercept_request url body store = ⟨store, 0, true, none⟩ := by
  simp [intercept_request, h1, h2]

/-- Witness for C9 at a concrete non-matching URL and non-empty store. -/
theorem intercept_request_passthrough_witness :
    strContains "https://x.com/home" "UserByScreenName" = false ∧
    strContains "https://x.com/home" "UserTweets" = false ∧
    intercept_request "https://x.com/home" (.obj []) [("user", .null)] =
      ⟨[("user", .null)], 0, true, none⟩ :=
  ⟨by decide, by decide,
    intercept_request_passthrough "https://x.com/home" (.obj []) [("user", .null)]
      (by decide) (by decide)⟩

/-- C2: evaluating the router at a matched profile request whose fetched
body is an error body (no "data" key): the `KeyError` raised inside
`get_profile` escapes `intercept_request` uncaught, no write is made, and
`route.continue_` is never reached — the code has no try/except, contrary
to the propagation policy of the spec. -/
theorem intercept_request_mapper_failure_escapes :
    intercept_request "https://x.com/i/api/graphql/abc/UserByScreenName?v=1"
        (.obj [("errors", .arr [])]) [] =
      ⟨[], 1, false, some (.keyError "data")⟩ := rfl

/-- C10: a legacy fragment with all mandatory fields and a non-empty
media list whose entry lacks `media_url_https` makes `tweet_parse` raise
`KeyError` instead of skipping the entry. -/
theorem tweet_parse_media_url_precondition :
    objLookup cLegacyBadMedia "created_at" = some (.str "Wed May 03") ∧
    objLookup cLegacyBadMedia "full_text" = some (.str "oops") ∧
    mediaRaw cLegacyBadMedia = .ok (.arr [.obj [("id_str", .str "1")]]) ∧
    tweet_parse cLegacyBadMedia = .error (.keyError "media_url_https") :=
  ⟨rfl, rfl, rfl, rfl⟩

/-- C4 counterexample: after handling a matched timeline request the
store has "tweets" as its only key, which is not one of the keys "user"/"posts"
the claim allows. -/
theorem store_keys_tweets_not_posts :
    storeKeys (intercept_request "UserTweets" cTimeline1 []).store = ["tweets"] ∧
    "tweets" ∉ (["user", "posts"] : List String) :=
  ⟨rfl, by decide⟩

/-- C4 (amended): after any session driven by any sequence of intercepted
requests, the top-level keys of the result store are among "user" and "tweets"
(the posts list is stored under "tweets", not "posts"), without
duplicates, hence at most two keys. -/
theorem runSession_store_shape (events : List (String × JSON)) :
    storeKeys (runSession events []) ⊆ ["user", "tweets"] ∧
    (storeKeys (runSession events [])).Nodup ∧
    (storeKeys (runSession events [])).length ≤ 2 := by
  obtain ⟨hsub, hnd⟩ :=
    runSession_goodKeys events [] ⟨by simp [storeKeys], by simp [storeKeys]⟩
  refine ⟨hsub, hnd, ?_⟩
  calc (storeKeys (runSession events [])).length
      = (storeKeys (runSession events [])).toFinset.card :=
        (List.toFinset_card_of_nodup hnd).symm
    _ ≤ (["user", "tweets"] : List String).toFinset.card :=
        Finset.card_le_card
          (fun a ha => List.mem_toFinset.mpr (hsub (List.mem_toFinset.mp ha)))
    _ ≤ (["user", "tweets"] : List String).length := List.toFinset_card_le _
    _ ≤ 2 := by decide

/-- C5: `get_profile` succeeds exactly when the mandatory traversal
`data → user → result → legacy` reaches an object; in particular it never
raises when the path is present, whatever profile field keys are missing,
and raises exactly when the path is absent. -/
theorem get_profile_ok_iff (data : JSON) :
    (∃ r, get_profile data = .ok r) ↔
      (∃ fs, profilePath data = .ok (.obj fs)) := by
  rw [get_profile_char]
  cases hp : profilePath data with
  | error e => simp [Bind.bind, Except.bind]
  | ok p => cases p <;> simp [Bind.bind, Except.bind]

theorem scalarOrNull_lookupD {fs : List (String × JSON)} {k : String}
    (hall : ∀ p ∈ fs, isScalar p.2 = true) :
    scalarOrNull ((fs.lookup k).getD .null) = true := by
  cases hl : fs.lookup k with
  | none => rfl
  | some v => exact scalarOrNull_of_isScalar (hall _ (lookup_mem_pair hl))

/-- C3 counterexample: on a fully-populated valid profile payload the
mapper output keys are username, display_name, followers, following,
tweets_count, profile_url, avatar — the last two are not named
profile_banner_url / avatar_url as the claim states. -/
theorem get_profile_key_names_counterexample :
    (get_profile cProfBody).map objKeys = .ok ["username", "display_name",
      "followers", "following", "tweets_count", "profile_url", "avatar"] ∧
    (["username", "display_name", "followers", "following", "tweets_count",
      "profile_url", "avatar"] : List String) ≠
      ["username", "display_name", "followers", "following", "tweets_count",
       "profile_banner_url", "avatar_url"] :=
  ⟨rfl, by decide⟩

/-- C3 (amended): for every valid profile payload (mandatory traversal
path reaching an object), `get_profile` returns a record with exactly the
seven keys username, display_name, followers, following, tweets_count,
profile_url, avatar; each value is the value of the legacy fragment at the
corresponding source key, or null when that key is absent — hence an
integer, a string, or null whenever the field values of the fragment are
integers or strings. -/
theorem get_profile_shape (data r : JSON) (h : get_profile data = .ok r) :
    ∃ fs, profilePath data = .ok (.obj fs) ∧
      objKeys r = ["username", "display_name", "followers", "following",
        "tweets_count", "profile_url", "avatar"] ∧
      objLookup r "username" = some ((fs.lookup "screen_name").getD .null) ∧
      objLookup r "display_name" = some ((fs.lookup "name").getD .null) ∧
      objLookup r "followers" = some ((fs.lookup "followers_count").getD .null) ∧
      objLookup r "following" = some ((fs.lookup "friends_count").getD .null) ∧
      objLookup r "tweets_count" = some ((fs.lookup "statuses_count").getD .null) ∧
      objLookup r "profile_url" = some ((fs.lookup "profile_banner_url").getD .null) ∧
      objLookup r "avatar" = some ((fs.lookup "profile_image_url_https").getD .null) ∧
      ((∀ p ∈ fs, isScalar p.2 = true) →
        ∀ q ∈ objFields r, scalarOrNull q.2 = true) := by
  rw [get_profile_char] at h
  cases hp : profilePath data with
  | error e =>
    rw [hp] at h
    simp [Bind.bind, Except.bind] at h
  | ok p =>
    rw [hp] at h
    cases p with
    | obj fs =>
      simp [Bind.bind, Except.bind] at h
      subst h
      refine ⟨fs, rfl, rfl, rfl, rfl, rfl, rfl, rfl, rfl, rfl, ?_⟩
      intro hall q hq
      simp [objFields] at hq
      rcases hq with rfl | rfl | rfl | rfl | rfl | rfl | rfl <;>
        exact scalarOrNull_lookupD hall
    | null => simp [Bind.bind, Except.bind] at h
    | bool b => simp [Bind.bind, Except.bind] at h
    | num n => simp [Bind.bind, Except.bind] at h
    | str s => simp [Bind.bind, Except.bind] at h
    | arr xs => simp [Bind.bind, Except.bind] at h

/-- The record `get_profile` produces from `cProfBody`. -/
def cProfOut : JSON := ((get_profile cProfBody).toOption).getD .null

/-- Witness for the amended C3 at the concrete payload `cProfBody`. -/
theorem get_profile_shape_witness :
    get_profile cProfBody = .ok cProfOut ∧
    (∃ fs, profilePath cProfBody = .ok (.obj fs) ∧
      objKeys cProfOut = ["username", "display_name", "followers", "following",
        "tweets_count", "profile_url", "avatar"] ∧
      objLookup cProfOut "username" = some ((fs.lookup "screen_name").getD .null) ∧
      objLookup cProfOut "display_name" = some ((fs.lookup "name").getD .null) ∧
      objLookup cProfOut "followers" = some ((fs.lookup "followers_count").getD .null) ∧
      objLookup cProfOut "following" = some ((fs.lookup "friends_count").getD .null) ∧
      objLookup cProfOut "tweets_count" = some ((fs.lookup "statuses_count").getD .null) ∧
      objLookup cProfOut "profile_url" = some ((fs.lookup "profile_banner_url").getD .null) ∧
      objLookup cProfOut "avatar" = some ((fs.lookup "profile_image_url_https").getD .null) ∧
      ((∀ p ∈ fs, isScalar p.2 = true) →
        ∀ q ∈ objFields cProfOut, scalarOrNull q.2 = true)) :=
  ⟨rfl, get_profile_shape cProfBody cProfOut rfl⟩

/-- A legacy fragment whose entities section is not an object: the five
mandatory fields are all present, yet `tweet_parse` raises. -/
def cLegacyBadEntities : JSON := .obj [("created_at", .str "Thu May 04"),
  ("full_text", .str "hm"), ("quote_count", .num 1), ("reply_count", .num 1),
  ("retweet_count", .num 1), ("entities", .num 7)]

/-- C6 counterexample: a legacy fragment containing all mandatory fields
on which `tweet_parse` nevertheless raises (its entities section is not
an object), so containing the mandatory fields alone does not guarantee a
record is returned. -/
theorem tweet_parse_mandatory_not_sufficient :
    objLookup cLegacyBadEntities "created_at" = some (.str "Thu May 04") ∧
    objLookup cLegacyBadEntities "full_text" = some (.str "hm") ∧
    objLookup cLegacyBadEntities "quote_count" = some (.num 1) ∧
    objLookup cLegacyBadEntities "reply_count" = some (.num 1) ∧
    objLookup cLegacyBadEntities "retweet_count" = some (.num 1) ∧
    tweet_parse cLegacyBadEntities = .error .attributeError :=
  ⟨rfl, rfl, rfl, rfl, rfl, rfl⟩

/-- C6 (amended): for every legacy fragment carrying the five mandatory
fields whose media section decodes (its entities, when present, an
object, and its media list either falsy or mappable), `tweet_parse`
returns a record carrying created_at, text, quote_count, reply_count and
retweet_count verbatim and bookmark_count equal to the fragment value,
0 when absent; and it fails whenever created_at or full_text is missing. -/
theorem tweet_parse_fields :
    (∀ (fs : List (String × JSON)) ca tx qc rc rt tm,
      fs.lookup "created_at" = some ca →
      fs.lookup "full_text" = some tx →
      fs.lookup "quote_count" = some qc →
      fs.lookup "reply_count" = some rc →
      fs.lookup "retweet_count" = some rt →
      mediaRaw (.obj fs) = .ok tm →
      (truthy tm = false ∨ ∃ m, mapMedia tm = .ok m) →
      ∃ extra, tweet_parse (.obj fs) = .ok (.obj
        ([("created_at", ca), ("text", tx), ("quote_count", qc),
          ("reply_count", rc), ("retweet_count", rt),
          ("bookmark_count", (fs.lookup "bookmark_count").getD (.num 0))]
          ++ extra))) ∧
    (∀ fs : List (String × JSON),
      fs.lookup "created_at" = none ∨ fs.lookup "full_text" = none →
      ∃ e, tweet_parse (.obj fs) = .error e) := by
  constructor
  · intro fs ca tx qc rc rt tm h1 h2 h3 h4 h5 hm hmm
    by_cases htm : truthy tm = true
    · rcases hmm with hf | ⟨m, hmap⟩
      · rw [hf] at htm
        cases htm
      · exact ⟨[("media", m)], by
          simp [tweet_parse, dictGet, dictGetD, h1, h2, h3, h4, h5, hm, htm,
            hmap, Bind.bind, Except.bind, Pure.pure, Except.pure]⟩
    · have htm' : truthy tm = false := by simpa using htm
      exact ⟨[], by
        simp [tweet_parse, dictGet, dictGetD, h1, h2, h3, h4, h5, hm, htm',
          Bind.bind, Except.bind, Pure.pure, Except.pure]⟩
  · intro fs hmiss
    rcases hmiss with hc | hf
    · exact ⟨.keyError "created_at", by
        simp [tweet_parse, dictGet, hc, Bind.bind, Except.bind]⟩
    · cases hc : fs.lookup "created_at" with
      | none => exact ⟨.keyError "created_at", by
          simp [tweet_parse, dictGet, hc, Bind.bind, Except.bind]⟩
      | some ca => exact ⟨.keyError "full_text", by
          simp [tweet_parse, dictGet, hc, hf, Bind.bind, Except.bind]⟩

/-- Witness for the amended C6 at the concrete fragment `cLegacyMedia`. -/
theorem tweet_parse_fields_witness :
    ∃ extra, tweet_parse (.obj (objFields cLegacyMedia)) = .ok (.obj
      ([("created_at", .str "Tue May 02"), ("text", .str "pics"),
        ("quote_count", .num 4), ("reply_count", .num 5),
        ("retweet_count", .num 6),
        ("bookmark_count",
          ((objFields cLegacyMedia).lookup "bookmark_count").getD (.num 0))]
        ++ extra)) :=
  tweet_parse_fields.1 (objFields cLegacyMedia) _ _ _ _ _ _
    rfl rfl rfl rfl rfl rfl (Or.inr ⟨_, rfl⟩)

/-- Inversion of a successful `tweet_parse`: the five mandatory lookups
and the media decoding succeeded, and the record is the six base fields,
followed by a `media` field exactly when the media list was truthy. -/
theorem tweet_parse_ok_inv {legacy r : JSON} (h : tweet_parse legacy = .ok r) :
    ∃ ca tx qc rc rt bm tm,
      dictGet legacy "created_at" = .ok ca ∧
      dictGet legacy "full_text" = .ok tx ∧
      dictGet legacy "quote_count" = .ok qc ∧
      dictGet legacy "reply_count" = .ok rc ∧
      dictGet legacy "retweet_count" = .ok rt ∧
      dictGetD legacy "bookmark_count" (.num 0) = .ok bm ∧
      mediaRaw legacy = .ok tm ∧
      ((truthy tm = false ∧ r = .obj [("created_at", ca), ("text", tx),
          ("quote_count", qc), ("reply_count", rc), ("retweet_count", rt),
          ("bookmark_count", bm)]) ∨
       (truthy tm = true ∧ ∃ m, mapMedia tm = .ok m ∧
          r = .obj ([("created_at", ca), ("text", tx), ("quote_count", qc),
            ("reply_count", rc), ("retweet_count", rt),
            ("bookmark_count", bm)] ++ [("media", m)]))) := by
  unfold tweet_parse at h
  obtain ⟨ca, hca, h⟩ := except_bind_ok h
  obtain ⟨tx, htx, h⟩ := except_bind_ok h
  obtain ⟨qc, hqc, h⟩ := except_bind_ok h
  obtain ⟨rc, hrc, h⟩ := except_bind_ok h
  obtain ⟨rt, hrt, h⟩ := except_bind_ok h
  obtain ⟨bm, hbm, h⟩ := except_bind_ok h
  obtain ⟨tm, htm, h⟩ := except_bind_ok h
  refine ⟨ca, tx, qc, rc, rt, bm, tm, hca, htx, hqc, hrc, hrt, hbm, htm, ?_⟩
  by_cases ht : truthy tm = true
  · rw [if_pos ht] at h
    obtain ⟨m, hm, h⟩ := except_bind_ok h
    right
    refine ⟨ht, m, hm, ?_⟩
    simpa [Pure.pure, Except.pure] using h.symm
  · rw [if_neg ht] at h
    left
    refine ⟨by simpa using ht, ?_⟩
    simpa [Pure.pure, Except.pure] using h.symm

/-- C7: for every legacy fragment on which `tweet_parse` returns a
record: when the media-entities list is absent or empty the record has no
media key at all; when it is non-empty the media value of the record has
exactly one item per entry, in order, each carrying that same entry and its
`media_url_https` URL. -/
theorem tweet_parse_media_asymmetry (legacy r : JSON)
    (h : tweet_parse legacy = .ok r) :
    (mediaRaw legacy = .ok (.arr []) → objLookup r "media" = none) ∧
    (∀ items, mediaRaw legacy = .ok (.arr items) → items ≠ [] →
      ∃ ms, objLookup r "media" = some (.arr ms) ∧
        ms.length = items.length ∧
        ∀ i (hi : i < items.length), ∃ u,
          dictGet (items.get ⟨i, hi⟩) "media_url_https" = .ok u ∧
          ms.get? i = some (.obj [("url", u)])) := by
  obtain ⟨ca, tx, qc, rc, rt, bm, tm, hca, htx, hqc, hrc, hrt, hbm, htm, hbr⟩ :=
    tweet_parse_ok_inv h
  constructor
  · intro hempty
    rw [htm] at hempty
    simp only [Except.ok.injEq] at hempty
    subst hempty
    rcases hbr with ⟨hf, rfl⟩ | ⟨ht, m, hm, rfl⟩
    · rfl
    · rw [show truthy (JSON.arr []) = false from rfl] at ht
      cases ht
  · intro items hitems hne
    rw [htm] at hitems
    simp only [Except.ok.injEq] at hitems
    subst hitems
    rcases hbr with ⟨hf, rfl⟩ | ⟨ht, m, hm, rfl⟩
    · exfalso
      cases items with
      | nil => exact hne rfl
      | cons a as => simp [truthy] at hf
    · unfold mapMedia at hm
      obtain ⟨ms, hms, hm2⟩ := except_bind_ok hm
      obtain rfl : m = .arr ms := by
        simpa [Pure.pure, Except.pure] using hm2.symm
      obtain ⟨hlen, hpt⟩ := mapM_ok_pointwise _ hms
      refine ⟨ms, rfl, hlen, ?_⟩
      intro i hi
      obtain ⟨y, hy, hy'⟩ := hpt i hi
      obtain ⟨u, hu, hyu⟩ := except_bind_ok hy
      obtain rfl : y = .obj [("url", u)] := by
        simpa [Pure.pure, Except.pure] using hyu.symm
      exact ⟨u, hu, hy'⟩

/-- The record `tweet_parse` produces from `cLegacyMedia`. -/
def cMediaOut : JSON := ((tweet_parse cLegacyMedia).toOption).getD .null

/-- Witness for C7 at the concrete fragment `cLegacyMedia`. -/
theorem tweet_parse_media_asymmetry_witness :
    tweet_parse cLegacyMedia = .ok cMediaOut ∧
    ((mediaRaw cLegacyMedia = .ok (.arr []) →
        objLookup cMediaOut "media" = none) ∧
     (∀ items, mediaRaw cLegacyMedia = .ok (.arr items) → items ≠ [] →
       ∃ ms, objLookup cMediaOut "media" = some (.arr ms) ∧
         ms.length = items.length ∧
         ∀ i (hi : i < items.length), ∃ u,
           dictGet (items.get ⟨i, hi⟩) "media_url_https" = .ok u ∧
           ms.get? i = some (.obj [("url", u)]))) :=
  ⟨rfl, tweet_parse_media_asymmetry cLegacyMedia cMediaOut rfl⟩

/-- A timeline payload whose instructions list stops at index 1: the
singleton first post is present and parses, but instruction index 2 (the
entries sequence) is absent. -/
def cTimelineNoEntries : JSON :=
  .obj [("data", .obj [("user", .obj [("result", .obj [("timeline_v2",
    .obj [("timeline", .obj [("instructions", .arr
      [.null, mkInst1 cLegacy])])])])])])]

/-- C8 counterexample: with cap = 1 the extractor still indexes the
instructions at 2 and reads the key "entries" there; on a payload whose
entries sequence is absent it raises IndexError instead of returning the
singleton post the claim promises. -/
theorem get_tweets_cap1_not_ignoring_entries :
    (∃ p, tweet_parse cLegacy = .ok p) ∧
    get_tweets cTimelineNoEntries 1 = .error .indexError :=
  ⟨⟨_, rfl⟩, rfl⟩

/-- C8 (amended): with cap = 1, for every payload carrying the singleton
first post at instruction index 1 and an entries list at instruction
index 2, `get_tweets` returns exactly the one mapped first post; the
contents of the entries list (here universally quantified) never affect
the result. -/
theorem get_tweets_cap1 (data instrs i1 fl p i2 : JSON) (entries : List JSON)
    (h1 : instructionsOf data = .ok instrs)
    (h2 : listIndex instrs 1 = .ok i1)
    (h3 : firstLegacyOf i1 = .ok fl)
    (h4 : tweet_parse fl = .ok p)
    (h5 : listIndex instrs 2 = .ok i2)
    (h6 : dictGet i2 "entries" = .ok (.arr entries)) :
    get_tweets data 1 = .ok [p] := by
  unfold get_tweets
  simp only [except_bind_eq h1, except_bind_eq h2, except_bind_eq h3,
    except_bind_eq h4, except_bind_eq h5, except_bind_eq h6]
  rfl

/-- The record `tweet_parse` produces from `cLegacy`. -/
def cFirstOut : JSON := ((tweet_parse cLegacy).toOption).getD .null

/-- Witness for the amended C8: at cap 1 on `cTimeline1` only the mapped
first post is returned and the one entry is ignored. -/
theorem get_tweets_cap1_witness :
    get_tweets cTimeline1 1 = .ok [cFirstOut] :=
  get_tweets_cap1 cTimeline1 _ _ _ cFirstOut _ _ rfl rfl rfl rfl rfl rfl

/-- C1: whenever the timeline extractor succeeds with cap ≥ 1 (default
`TWIT_COUNT` = 50), it returns at most cap posts — the first post counts
toward the cap — and the first returned post is exactly `tweet_parse` of
the singleton first-post legacy fragment at instruction index 1. -/
theorem get_tweets_cap_and_first (data : JSON) (cap : Int) (ts : List JSON)
    (hcap : 1 ≤ cap) (h : get_tweets data cap = .ok ts) :
    (ts.length : Int) ≤ cap ∧
    ∃ instrs i1 fl p, instructionsOf data = .ok instrs ∧
      listIndex instrs 1 = .ok i1 ∧ firstLegacyOf i1 = .ok fl ∧
      tweet_parse fl = .ok p ∧ ts.head? = some p := by
  unfold get_tweets at h
  obtain ⟨instrs, hi, h⟩ := except_bind_ok h
  obtain ⟨i1, hx1, h⟩ := except_bind_ok h
  obtain ⟨fl, hfl, h⟩ := except_bind_ok h
  obtain ⟨p, hp, h⟩ := except_bind_ok h
  obtain ⟨i2, hx2, h⟩ := except_bind_ok h
  obtain ⟨entJ, hent, h⟩ := except_bind_ok h
  obtain ⟨orig, horig, h⟩ := except_bind_ok h
  obtain ⟨rest, hrest, h⟩ := except_bind_ok h
  obtain rfl : ts = p :: rest := by
    simpa [Pure.pure, Except.pure] using h.symm
  obtain ⟨hlen, _⟩ := mapM_ok_pointwise _ hrest
  refine ⟨?_, instrs, i1, fl, p, hi, hx1, hfl, hp, rfl⟩
  have hpos : (0:Int) ≤ cap - 1 := by omega
  have hslice : (pySliceTo orig (cap - 1)).length ≤ (cap - 1).toNat := by
    rw [pySliceTo, if_pos hpos]
    simp [List.length_take]
  have hcast : ((cap - 1).toNat : Int) = cap - 1 := Int.toNat_of_nonneg hpos
  have hlc : (p :: rest).length = rest.length + 1 := rfl
  omega

/-- Witness for C1 at `cTimeline1` with the default cap of 50. -/
theorem get_tweets_cap_and_first_witness :
    (1:Int) ≤ TWIT_COUNT ∧ get_tweets cTimeline1 TWIT_COUNT = .ok cTs ∧
    ((cTs.length : Int) ≤ TWIT_COUNT ∧
     ∃ instrs i1 fl p, instructionsOf cTimeline1 = .ok instrs ∧
       listIndex instrs 1 = .ok i1 ∧ firstLegacyOf i1 = .ok fl ∧
       tweet_parse fl = .ok p ∧ cTs.head? = some p) :=
  ⟨by decide, rfl,
    get_tweets_cap_and_first cTimeline1 TWIT_COUNT cTs (by decide) rfl⟩
